import Mathlib

/-!
Verification of `nlpmodels/utils/utils.py` and
`nlpmodels/models/transformer_blocks/encoder.py` against the repository's
specification, via a shallow embedding of both modules.

Tensors are embedded as nested lists of real numbers; machine floats are
idealized to `ℝ`.  Python's `dict` (insertion ordered) is embedded as an
association list, `KeyError` as the `Except.error` branch carrying the missing
key, and a raised `RuntimeError` / `ValueError` of a tensor primitive as a
`none` result.
-/

namespace NlpModels

/-! ## Embedding of `nlpmodels/utils/utils.py` -/

/-- A 1-D tensor (one embedding row), idealized over `ℝ`. -/
abbrev Vec := List ℝ

/-- Dot product of two 1-D tensors. -/
def dotProd (a b : Vec) : ℝ := (List.zipWith (· * ·) a b).sum

/-- Model of `torch.nn.CosineSimilarity(dim=0)` applied to two 1-D tensors:
the dot product divided by the product of the L2 norms
(`‖a‖ = √(a·a)`).  The small numerical guard `eps = 1e-8` that torch uses to
avoid a division by an exact floating-point zero is idealized away, together
with the rest of floating-point arithmetic. -/
noncomputable def cosineSim (a b : Vec) : ℝ :=
  dotProd a b / (Real.sqrt (dotProd a a) * Real.sqrt (dotProd b b))

/-- Model of Python's `str.lower()` (character-wise lower-casing; ASCII
behaviour is all the repository relies on). -/
def strLower (s : String) : String := String.mk (s.data.map Char.toLower)

/-- A `word_to_idx` Python dictionary: an insertion-ordered association list
from token to embedding-row index, iterated in that order by `.items()`. -/
abbrev Vocab := List (String × ℕ)

/-- Model of Python's `sorted(distances, key=lambda x: x[1], reverse=True)`:
a stable sort, descending in the score component, ties kept in input order. -/
noncomputable def sortByScoreDesc (l : List (String × ℝ)) : List (String × ℝ) :=
  l.mergeSort (fun p q => decide (q.2 ≤ p.2))

/-- The accumulation loop of `get_cosine_similar` (utils.py lines 34-38): for
every `(word, index)` item of `word_to_idx` whose token is not one of
`('<MASK>', target_word, '<UNK>')`, the pair of the token and the cosine
similarity of `word_embedding` with row `index`.  Row access `embeddings[index]`
is embedded with a default for an out-of-range index; the embedding-table
invariant (all stored indices are in range) is assumed where it matters. -/
noncomputable def similarityList (target_word : String) (word_to_idx : Vocab)
    (embeddings : List Vec) (word_embedding : Vec) : List (String × ℝ) :=
  (word_to_idx.filter
      (fun p => !(p.1 == "<MASK>" || p.1 == target_word || p.1 == "<UNK>"))).map
    (fun p => (p.1, cosineSim word_embedding (embeddings.getD p.2 [])))

/-- Embedding of `get_cosine_similar` (utils.py lines 22-41).  The lookup
`word_to_idx[target_word.lower()]` raises `KeyError(target_word.lower())` when
the lower-cased target is absent; that is the `Except.error` branch, carrying
the missing key. -/
noncomputable def get_cosine_similar (target_word : String) (word_to_idx : Vocab)
    (embeddings : List Vec) : Except String (List (String × ℝ)) :=
  match word_to_idx.lookup (strLower target_word) with
  | none => .error (strLower target_word)
  | some i =>
      .ok (sortByScoreDesc
        (similarityList target_word word_to_idx embeddings (embeddings.getD i [])))

/-- Process-wide random-number-generator state touched by
`set_seed_everywhere`: the numpy RNG, the torch CPU RNG and the torch CUDA
(device-specific) RNGs, each recorded as the seed it was last given, if any. -/
structure RngState where
  numpy_seed : Option ℕ
  torch_seed : Option ℕ
  cuda_seed : Option ℕ
  deriving DecidableEq

/-- Model of `np.random.seed(seed)`. -/
def np_random_seed (seed : ℕ) (s : RngState) : RngState :=
  { s with numpy_seed := some seed }

/-- Model of `torch.manual_seed(seed)`. -/
def torch_manual_seed (seed : ℕ) (s : RngState) : RngState :=
  { s with torch_seed := some seed }

/-- Model of `torch.cuda.manual_seed_all(seed)` (seeds every CUDA device). -/
def torch_cuda_manual_seed_all (seed : ℕ) (s : RngState) : RngState :=
  { s with cuda_seed := some seed }

/-- Embedding of `set_seed_everywhere` (utils.py lines 11-19): the hard-coded
seed 42 is handed, in order, to numpy, torch, and all CUDA devices. -/
def set_seed_everywhere (s : RngState) : RngState :=
  let seed : ℕ := 42
  torch_cuda_manual_seed_all seed (torch_manual_seed seed (np_random_seed seed s))

/-! ## Embedding of `nlpmodels/models/transformer_blocks/encoder.py` -/

/-- A 3-D tensor as nested lists: `x[d0][d1][d2]`.  Encoder activations carry
their dimensions as `[batch][sequence][feature]`. -/
abbrev T3 := List (List (List ℝ))

/-- Shape of a 3-D tensor: `some (n, c, l)` when the nesting is rectangular
(every dimension-1 slice has length `c`, every innermost row length `l`),
`none` otherwise. -/
def shape3 (x : T3) : Option (ℕ × ℕ × ℕ) :=
  match x with
  | [] => some (0, 0, 0)
  | m :: _ =>
      let c := m.length
      let l := (m.headD []).length
      if x.all (fun mm => mm.length == c && mm.all (fun row => row.length == l))
      then some (x.length, c, l) else none

/-- The `eps` constant of `torch.nn.BatchNorm1d` (default `1e-5`). -/
noncomputable def bnEps : ℝ := 1 / 100000

/-- Model of `torch.nn.BatchNorm1d(numFeatures, momentum=None, affine=False)`
applied (in its default training mode) to a 3-D input, which torch reads as
`[N, C, L]` = `[batch, channel, length]`: it requires the middle dimension to
equal `numFeatures` and more than one value per channel, and standardizes each
channel `j` by the mean and (biased) variance of that channel's `N * L` values
taken across the batch and length dimensions.  `affine=False` means no learned
scale or shift is applied.  `none` models the error torch raises when the
channel dimension mismatches the configured feature count (or the
more-than-one-value-per-channel check fails). -/
noncomputable def batchNorm1d (numFeatures : ℕ) (eps : ℝ) (x : T3) : Option T3 :=
  match shape3 x with
  | none => none
  | some (n, c, l) =>
      if c = numFeatures ∧ 1 < n * l then
        let chan : ℕ → List ℝ := fun j => (x.map (fun m => m.getD j [])).flatten
        let mean : ℕ → ℝ := fun j => (chan j).sum / ((n * l : ℕ) : ℝ)
        let var : ℕ → ℝ := fun j =>
          ((chan j).map (fun v => (v - mean j) ^ 2)).sum / ((n * l : ℕ) : ℝ)
        some (x.map (fun m =>
          m.mapIdx (fun j row =>
            row.map (fun v => (v - mean j) / Real.sqrt (var j + eps)))))
      else none

/-- Modelled from the spec: `MultiHeadedAttention`, `PositionWiseFFNLayer` and
`AddAndNormWithDropoutLayer` are imported by encoder.py from source modules
(attention.py, sublayers.py) that are not part of these sources.  Following
the spec's external-interface contracts they are carried inside the block as
black-box tensor transforms: `self_attention` maps `(query, key, value, mask)`
to a tensor, `feed_forward` maps a tensor to a tensor, and each of the two
residual-norm wrappers maps an input and a sublayer function to a tensor
(spec contract: `normalize(x + dropout(f(x)))`, output shape = input shape). -/
structure EncoderBlock where
  size : ℕ
  self_attention : T3 → T3 → T3 → T3 → T3
  add_norm_layer_1 : T3 → (T3 → T3) → T3
  feed_forward : T3 → T3
  add_norm_layer_2 : T3 → (T3 → T3) → T3

/-- Embedding of `EncoderBlock.forward` (encoder.py lines 59-69):
`values -> addNorm1(values, x ↦ self_attention(x, x, x, mask))
        -> addNorm2(·, feed_forward)`. -/
def EncoderBlock.forward (b : EncoderBlock) (values mask : T3) : T3 :=
  let v1 := b.add_norm_layer_1 values (fun x => b.self_attention x x x mask)
  b.add_norm_layer_2 v1 b.feed_forward

/-- Functional content of a `CompositeEncoder`: the list of encoder blocks and
the feature count `size` configuring the final `BatchNorm1d`. -/
structure CompositeEncoder where
  layers : List EncoderBlock
  size : ℕ

/-- Functional content of `CompositeEncoder.__init__` (encoder.py lines 78-86):
`nn.ModuleList([deepcopy(layer)] * num_layers)` yields a list of `num_layers`
entries each of which computes exactly what `layer` computes (the Python
expression copies `layer` once and stores that one copy `num_layers` times;
the reference-level aliasing this creates is modelled separately below by
`moduleListOfInit`).  The final norm is `nn.BatchNorm1d(layer.size,
momentum=None, affine=False)`. -/
def CompositeEncoder.init (layer : EncoderBlock) (num_layers : ℕ) : CompositeEncoder :=
  { layers := List.replicate num_layers layer, size := layer.size }

/-- Embedding of `CompositeEncoder.forward` (encoder.py lines 88-101): the
`for layer in self._layers: values = layer(values, mask)` loop is a left fold,
followed by the final `BatchNorm1d`. -/
noncomputable def CompositeEncoder.forward (c : CompositeEncoder) (values mask : T3) :
    Option T3 :=
  batchNorm1d c.size bnEps
    (c.layers.foldl (fun acc layer => layer.forward acc mask) values)

/-- Sequential chaining of blocks, written as the spec describes the loop:
block 1 receives `values`, block `i+1` receives block `i`'s output, and every
block receives the one unmodified `mask`. -/
def runBlocksSeq : List EncoderBlock → T3 → T3 → T3
  | [], values, _ => values
  | layer :: rest, values, mask => runBlocksSeq rest (layer.forward values mask) mask

/-- A concrete `EncoderBlock` whose spec-modelled external sublayers are
shape-preserving pass-through transforms (each residual-norm wrapper applies
its sublayer function, attention returns its query, the feed-forward is the
identity); used to evaluate the stack at concrete inputs. -/
def idBlock (size : ℕ) : EncoderBlock :=
  { size := size
    self_attention := fun q _ _ _ => q
    add_norm_layer_1 := fun v f => f v
    feed_forward := fun v => v
    add_norm_layer_2 := fun v f => f v }

/-- Modelled from the spec: "pure standardization across the feature
dimension" — every position's feature row is rescaled to zero mean and unit
variance (no affine step).  Stated for comparison with the final normalization
the code actually applies. -/
noncomputable def specFeatureStandardize (x : T3) : T3 :=
  x.map (fun m => m.map (fun row =>
    let mu := row.sum / (row.length : ℝ)
    let sigma2 := (row.map (fun v => (v - mu) ^ 2)).sum / (row.length : ℝ)
    row.map (fun v => (v - mu) / Real.sqrt sigma2)))

/-! ### Reference-level model of module construction (for parameter aliasing)

Python objects live on a heap: `deepcopy` allocates a fresh object, while list
replication `[e] * n` repeats one reference.  Module references are embedded
as natural numbers and the heap as a map from reference to that module's
(flattened) parameter vector, idealized over `ℚ` so states compare
decidably. -/

/-- A heap of module parameters: the next fresh reference and the parameter
vector stored at each reference. -/
structure ParamStore where
  nextRef : ℕ
  params : ℕ → List ℚ

/-- Model of `copy.deepcopy` on a module: allocates a fresh reference holding
a value copy of the source module's parameters, returning the new reference
and the extended heap. -/
def deepcopyModule (src : ℕ) (s : ParamStore) : ℕ × ParamStore :=
  (s.nextRef,
   { nextRef := s.nextRef + 1,
     params := fun r => if r = s.nextRef then s.params src else s.params r })

/-- Reference-level model of encoder.py line 86,
`nn.ModuleList([deepcopy(layer)] * num_layers)`: Python evaluates
`deepcopy(layer)` once and replicates the resulting reference
`num_layers` times. -/
def moduleListOfInit (layer : ℕ) (num_layers : ℕ) (s : ParamStore) :
    List ℕ × ParamStore :=
  let res := deepcopyModule layer s
  (List.replicate num_layers res.1, res.2)

/-- In-place mutation of the parameters of the module referenced by `r`
(what a training step, or any assignment to a block's weights, does). -/
def setParams (r : ℕ) (v : List ℚ) (s : ParamStore) : ParamStore :=
  { s with params := fun q => if q = r then v else s.params q }

/-! ### Concrete inputs used by witnesses and counterexamples -/

/-- The spec's example vocabulary:
`{"cat": 0, "dog": 1, "car": 2, "<MASK>": 3, "<UNK>": 4}`. -/
def exampleVocab : Vocab :=
  [("cat", 0), ("dog", 1), ("car", 2), ("<MASK>", 3), ("<UNK>", 4)]

/-- Embedding rows for `exampleVocab`: `cat` and `dog` identical, `car`
orthogonal to both. -/
noncomputable def exampleEmbeddings : List Vec :=
  [[1, 0], [1, 0], [0, 1], [0, 0], [0, 0]]

/-- A `[2, 2, 3]` input (batch 2, sequence 2, feature 3): its sequence length
differs from its feature count. -/
noncomputable def inputRect : T3 :=
  [[[0, 0, 0], [0, 0, 0]], [[0, 0, 0], [0, 0, 0]]]

/-- A `[2, 2, 2]` input whose feature rows are each constant (so feature-wise
standardization sends it to zero) but whose two batch elements differ (so
batch statistics do not). -/
noncomputable def inputSquare : T3 :=
  [[[0, 0], [0, 0]], [[2, 2], [2, 2]]]

/-! ### Helper lemmas about lookup and the sort -/

/-- A successful association-list lookup exhibits a member of the list. -/
theorem lookup_mem {k : String} {v : ℕ} :
    ∀ {l : Vocab}, l.lookup k = some v → (k, v) ∈ l := by
  intro l
  induction l with
  | nil => intro h; simp [List.lookup] at h
  | cons a l ih =>
      obtain ⟨a1, a2⟩ := a
      intro h
      rw [List.lookup] at h
      by_cases hk : k = a1
      · subst hk
        simp only [beq_self_eq_true, Option.some.injEq] at h
        simp [h]
      · have hne : (k == a1) = false := beq_eq_false_iff_ne.mpr hk
        rw [hne] at h
        exact List.mem_cons_of_mem _ (ih h)

/-- The descending-by-score comparison used by `sortByScoreDesc` is
transitive (in the form `List.mergeSort` expects). -/
theorem scoreDescLE_trans : ∀ a b c : String × ℝ,
    (fun p q : String × ℝ => decide (q.2 ≤ p.2)) a b = true →
    (fun p q : String × ℝ => decide (q.2 ≤ p.2)) b c = true →
    (fun p q : String × ℝ => decide (q.2 ≤ p.2)) a c = true := by
  intro a b c hab hbc
  simp only [decide_eq_true_eq] at *
  exact le_trans hbc hab

/-- The descending-by-score comparison used by `sortByScoreDesc` is total. -/
theorem scoreDescLE_total : ∀ a b : String × ℝ,
    ((fun p q : String × ℝ => decide (q.2 ≤ p.2)) a b ||
     (fun p q : String × ℝ => decide (q.2 ≤ p.2)) b a) = true := by
  intro a b
  simp only [Bool.or_eq_true, decide_eq_true_eq]
  exact le_total b.2 a.2

/-- Membership in `similarityList`, unfolded. -/
theorem mem_similarityList {target_word : String} {word_to_idx : Vocab}
    {embeddings : List Vec} {we : Vec} {w : String} {s : ℝ} :
    (w, s) ∈ similarityList target_word word_to_idx embeddings we ↔
      (∃ j, (w, j) ∈ word_to_idx ∧
          s = cosineSim we (embeddings.getD j [])) ∧
        w ≠ "<MASK>" ∧ w ≠ target_word ∧ w ≠ "<UNK>" := by
  simp only [similarityList, List.mem_map, List.mem_filter]
  constructor
  · rintro ⟨⟨pw, pj⟩, ⟨hmem, hfil⟩, heq⟩
    simp only [Prod.mk.injEq] at heq
    obtain ⟨hw, hs⟩ := heq
    subst hw
    simp only [Bool.not_eq_eq_eq_not, Bool.not_true, Bool.or_eq_false_iff,
      beq_eq_false_iff_ne, ne_eq] at hfil
    exact ⟨⟨pj, hmem, hs.symm⟩, hfil.1.1, hfil.1.2, hfil.2⟩
  · rintro ⟨⟨j, hmem, hs⟩, h1, h2, h3⟩
    refine ⟨(w, j), ⟨hmem, ?_⟩, by simp [hs]⟩
    simp only [Bool.not_eq_eq_eq_not, Bool.not_true, Bool.or_eq_false_iff,
      beq_eq_false_iff_ne, ne_eq]
    exact ⟨⟨h1, h2⟩, h3⟩

/-- The `for` loop of `CompositeEncoder.forward` (a left fold) agrees with the
explicit sequential chaining `runBlocksSeq`. -/
theorem foldl_eq_runBlocksSeq (ls : List EncoderBlock) (values mask : T3) :
    ls.foldl (fun acc layer => layer.forward acc mask) values =
      runBlocksSeq ls values mask := by
  induction ls generalizing values with
  | nil => rfl
  | cons l rest ih => simp only [List.foldl_cons, runBlocksSeq, ih]

/-! ## Claim theorems -/

/-- C1: the claim says the N blocks of a CompositeEncoder have independent,
non-aliased parameter instances.  The code (encoder.py line 86) evaluates
`deepcopy(layer)` once and replicates that single reference, so the claim
fails: constructing a stack with `num_layers = 2` from a prototype at
reference 0 whose parameters read `[1]` yields two blocks that are one and
the same reference; block 1's parameters read `[1]` before, and `[2]` after,
block 0's parameters are overwritten with `[2]`. -/
theorem c1_blocks_share_parameters_eval :
    (moduleListOfInit 0 2 { nextRef := 1, params := fun _ => [1] }).1.getD 0 0 =
      (moduleListOfInit 0 2 { nextRef := 1, params := fun _ => [1] }).1.getD 1 0 ∧
    (moduleListOfInit 0 2 { nextRef := 1, params := fun _ => [1] }).2.params
      ((moduleListOfInit 0 2 { nextRef := 1, params := fun _ => [1] }).1.getD 1 0) = [1] ∧
    (setParams
        ((moduleListOfInit 0 2 { nextRef := 1, params := fun _ => [1] }).1.getD 0 0) [2]
        (moduleListOfInit 0 2 { nextRef := 1, params := fun _ => [1] }).2).params
      ((moduleListOfInit 0 2 { nextRef := 1, params := fun _ => [1] }).1.getD 1 0) = [2] :=
  ⟨rfl, rfl, rfl⟩

/-- C2: the claim says `CompositeEncoder.forward` returns a tensor of the
input's shape `[B, S, D]` for every valid input.  Evaluated at the `[2, 2, 3]`
input (through a stack of two shape-preserving blocks of size 3) the forward
call instead fails: the final `BatchNorm1d(3)` reads the sequence dimension 2
as its channel dimension and rejects the tensor. -/
theorem c2_stack_forward_error_eval :
    (CompositeEncoder.init (idBlock 3) 2).forward inputRect [] = none := rfl

/-- C6: when the lower-cased target word is not a key of the vocabulary
mapping, `get_cosine_similar` fails with a key-not-found error identifying
the missing (lower-cased) token, returning no partial result. -/
theorem c6_lookup_miss_error (target_word : String) (word_to_idx : Vocab)
    (embeddings : List Vec)
    (hmiss : word_to_idx.lookup (strLower target_word) = none) :
    get_cosine_similar target_word word_to_idx embeddings =
      .error (strLower target_word) := by
  unfold get_cosine_similar
  rw [hmiss]

/-- Witness for C6: the spec's lookup-miss scenario, `"unknown_token"` absent
from the example vocabulary. -/
theorem c6_lookup_miss_error_witness :
    get_cosine_similar "unknown_token" exampleVocab exampleEmbeddings =
      .error (strLower "unknown_token") :=
  c6_lookup_miss_error "unknown_token" exampleVocab exampleEmbeddings (by decide)

/-- C7: one call to `set_seed_everywhere` seeds the general-purpose (numpy)
RNG, the tensor-library (torch) RNG and the device-specific (CUDA) RNGs with
one and the same seed value, 42. -/
theorem c7_set_seed_everywhere_all_sources (s : RngState) :
    (set_seed_everywhere s).numpy_seed = some 42 ∧
    (set_seed_everywhere s).torch_seed = some 42 ∧
    (set_seed_everywhere s).cuda_seed = some 42 :=
  ⟨rfl, rfl, rfl⟩

/-- C8: `EncoderBlock.forward` first applies residual-norm wrapper #1 to the
closure invoking attention with query = key = value = x and the given mask,
then applies residual-norm wrapper #2 directly to the feed-forward module. -/
theorem c8_block_sublayer_order (b : EncoderBlock) (values mask : T3) :
    b.forward values mask =
      b.add_norm_layer_2
        (b.add_norm_layer_1 values (fun x => b.self_attention x x x mask))
        b.feed_forward := rfl

/-- C9: `CompositeEncoder.forward` feeds `values` sequentially through the
blocks — each block's output is the next block's input — with every block
receiving the one unmodified `mask`, and hands the last block's output to the
final normalization. -/
theorem c9_sequential_blocks_constant_mask (c : CompositeEncoder)
    (values mask : T3) :
    c.forward values mask =
      batchNorm1d c.size bnEps (runBlocksSeq c.layers values mask) := by
  unfold CompositeEncoder.forward
  rw [foldl_eq_runBlocksSeq]

/-- C3: the claim says the final normalization `CompositeEncoder.forward`
applies is a pure standardization across the feature dimension.  Evaluated at
the `[2, 2, 2]` input `inputSquare` (through one pass-through block of size 2)
the code's `BatchNorm1d` standardizes each dimension-1 channel across the
batch and feature dimensions instead, and its output differs from the
feature-dimension standardization the claim describes. -/
theorem c3_final_norm_not_feature_standardization :
    (CompositeEncoder.init (idBlock 2) 1).forward inputSquare [] ≠
      some (specFeatureStandardize inputSquare) := by
  intro h
  have hfwd : (CompositeEncoder.init (idBlock 2) 1).forward inputSquare [] =
      batchNorm1d 2 bnEps inputSquare := rfl
  rw [hfwd] at h
  have h0 := congrArg (fun o : Option T3 =>
    (((o.getD []).getD 0 []).getD 0 []).getD 0 (0 : ℝ)) h
  simp only [batchNorm1d, shape3, specFeatureStandardize, inputSquare, bnEps] at h0
  norm_num at h0

/-- C4: on a successful lookup of the lower-cased target, `get_cosine_similar`
returns a list whose every entry carries the cosine similarity between the
target's embedding row and that token's row, which excludes exactly the
tokens `<MASK>`, `<UNK>` and the target word itself, and in which every other
vocabulary token appears with its similarity score. -/
theorem c4_cosine_similar_content (target_word : String) (word_to_idx : Vocab)
    (embeddings : List Vec) (i : ℕ)
    (hlook : word_to_idx.lookup (strLower target_word) = some i) :
    ∃ l, get_cosine_similar target_word word_to_idx embeddings = .ok l ∧
      (∀ w s, (w, s) ∈ l → w ≠ "<MASK>" ∧ w ≠ "<UNK>" ∧ w ≠ target_word ∧
        ∃ j, (w, j) ∈ word_to_idx ∧
          s = cosineSim (embeddings.getD i []) (embeddings.getD j [])) ∧
      (∀ w j, (w, j) ∈ word_to_idx → w ≠ "<MASK>" → w ≠ "<UNK>" →
        w ≠ target_word →
        (w, cosineSim (embeddings.getD i []) (embeddings.getD j [])) ∈ l) := by
  refine ⟨sortByScoreDesc
    (similarityList target_word word_to_idx embeddings (embeddings.getD i [])),
    ?_, ?_, ?_⟩
  · unfold get_cosine_similar
    rw [hlook]
  · intro w s hws
    have hmem : (w, s) ∈
        similarityList target_word word_to_idx embeddings (embeddings.getD i []) :=
      (List.mergeSort_perm _ _).mem_iff.mp hws
    obtain ⟨⟨j, hj, hs⟩, h1, h2, h3⟩ := mem_similarityList.mp hmem
    exact ⟨h1, h3, h2, j, hj, hs⟩
  · intro w j hj h1 h2 h3
    have hmem : (w, cosineSim (embeddings.getD i []) (embeddings.getD j [])) ∈
        similarityList target_word word_to_idx embeddings (embeddings.getD i []) :=
      mem_similarityList.mpr ⟨⟨j, hj, rfl⟩, h1, h3, h2⟩
    exact (List.mergeSort_perm _ _).mem_iff.mpr hmem

/-- Witness for C4: the spec's example vocabulary and embeddings with target
word `"cat"`, whose lower-cased form sits at row 0. -/
theorem c4_cosine_similar_content_witness :
    ∃ l, get_cosine_similar "cat" exampleVocab exampleEmbeddings = .ok l ∧
      (∀ w s, (w, s) ∈ l → w ≠ "<MASK>" ∧ w ≠ "<UNK>" ∧ w ≠ "cat" ∧
        ∃ j, (w, j) ∈ exampleVocab ∧
          s = cosineSim (exampleEmbeddings.getD 0 []) (exampleEmbeddings.getD j [])) ∧
      (∀ w j, (w, j) ∈ exampleVocab → w ≠ "<MASK>" → w ≠ "<UNK>" → w ≠ "cat" →
        (w, cosineSim (exampleEmbeddings.getD 0 []) (exampleEmbeddings.getD j []))
          ∈ l) :=
  c4_cosine_similar_content "cat" exampleVocab exampleEmbeddings 0 (by decide)

/-- C5: on a successful lookup the returned list is the loop's
`(token, score)` list sorted by score in descending order, the sort is stable
(any entries with equal scores keep the vocabulary's original iteration
order, stated as: every equal-score sublist of the unsorted list is still a
sublist of the result), and in particular a permutation of the unsorted
list — deterministic given the input's iteration order. -/
theorem c5_sorted_descending_stable (target_word : String) (word_to_idx : Vocab)
    (embeddings : List Vec) (i : ℕ)
    (hlook : word_to_idx.lookup (strLower target_word) = some i) :
    ∃ l, get_cosine_similar target_word word_to_idx embeddings = .ok l ∧
      List.Pairwise (fun p q : String × ℝ => q.2 ≤ p.2) l ∧
      l.Perm (similarityList target_word word_to_idx embeddings
        (embeddings.getD i [])) ∧
      (∀ c, c.Sublist (similarityList target_word word_to_idx embeddings
          (embeddings.getD i [])) →
        List.Pairwise (fun p q : String × ℝ => p.2 = q.2) c → c.Sublist l) := by
  refine ⟨sortByScoreDesc
    (similarityList target_word word_to_idx embeddings (embeddings.getD i [])),
    ?_, ?_, List.mergeSort_perm _ _, ?_⟩
  · unfold get_cosine_similar
    rw [hlook]
  · have hs := List.sorted_mergeSort scoreDescLE_trans scoreDescLE_total
      (similarityList target_word word_to_idx embeddings (embeddings.getD i []))
    exact hs.imp (fun h => by simpa using h)
  · intro c hsub hpair
    exact List.sublist_mergeSort scoreDescLE_trans scoreDescLE_total
      (hpair.imp (fun h => by simp [h])) hsub

/-- Witness for C5: the spec's example vocabulary and embeddings with target
word `"cat"`. -/
theorem c5_sorted_descending_stable_witness :
    ∃ l, get_cosine_similar "cat" exampleVocab exampleEmbeddings = .ok l ∧
      List.Pairwise (fun p q : String × ℝ => q.2 ≤ p.2) l ∧
      l.Perm (similarityList "cat" exampleVocab exampleEmbeddings
        (exampleEmbeddings.getD 0 [])) ∧
      (∀ c, c.Sublist (similarityList "cat" exampleVocab exampleEmbeddings
          (exampleEmbeddings.getD 0 [])) →
        List.Pairwise (fun p q : String × ℝ => p.2 = q.2) c → c.Sublist l) :=
  c5_sorted_descending_stable "cat" exampleVocab exampleEmbeddings 0 (by decide)

/-- C10: when the target word differs from its lower-cased form but the
lower-cased form is a vocabulary key, `get_cosine_similar` succeeds and its
result contains the lower-cased target token itself, paired with the cosine
similarity of the target's embedding row with itself — the exclusion test
compares tokens against the original-cased `target_word`, while the embedding
lookup uses the lower-cased form. -/
theorem c10_lowercased_target_included (target_word : String)
    (word_to_idx : Vocab) (embeddings : List Vec) (i : ℕ)
    (hlook : word_to_idx.lookup (strLower target_word) = some i)
    (hne : strLower target_word ≠ target_word)
    (hmask : strLower target_word ≠ "<MASK>")
    (hunk : strLower target_word ≠ "<UNK>") :
    ∃ l, get_cosine_similar target_word word_to_idx embeddings = .ok l ∧
      (strLower target_word,
        cosineSim (embeddings.getD i []) (embeddings.getD i [])) ∈ l := by
  refine ⟨sortByScoreDesc
    (similarityList target_word word_to_idx embeddings (embeddings.getD i [])),
    ?_, ?_⟩
  · unfold get_cosine_similar
    rw [hlook]
  · refine (List.mergeSort_perm _ _).mem_iff.mpr
      (mem_similarityList.mpr ⟨⟨i, lookup_mem hlook, rfl⟩, hmask, hne, hunk⟩)

/-- Witness for C10: target word `"Cat"` over the spec's example vocabulary;
its lower-cased form `"cat"` is a key (row 0), so the result contains
`"cat"` scored against itself. -/
theorem c10_lowercased_target_included_witness :
    ∃ l, get_cosine_similar "Cat" exampleVocab exampleEmbeddings = .ok l ∧
      (strLower "Cat",
        cosineSim (exampleEmbeddings.getD 0 []) (exampleEmbeddings.getD 0 []))
        ∈ l :=
  c10_lowercased_target_included "Cat" exampleVocab exampleEmbeddings 0
    (by decide) (by decide) (by decide) (by decide)

end NlpModels
